import Mathlib

/-!
Verification of the retrieval-filter-derive pipeline of the
stellar_structure_pocs repository (src/data_plotting/src/data_retrieval.py
and src/data_plotting/src/hr.py), against its natural-language
specification.

The numeric columns of the pandas DataFrame hold IEEE-754 doubles; a
missing value in such a column is NaN.  We model a double at the
granularity the pipeline observes: NaN, the two infinities, and finite
values (represented by exact rationals; the spec itself treats finite
arithmetic as exact "within floating tolerance").  The base-10 logarithm
on positive finite inputs is kept abstract as a rational-valued parameter,
since every claim is independent of its finite values; the special values
follow numpy semantics (log10 of a negative number or NaN is NaN, log10 of
zero is negative infinity, log10 of positive infinity is positive
infinity).
-/

namespace GaiaPipeline

/-- A pandas/numpy double as observed by the pipeline: NaN (also the
missing-value sentinel of a float column), negative infinity, positive
infinity, or a finite value. -/
inductive FP where
  | nan : FP
  | neginf : FP
  | posinf : FP
  | fin (q : ℚ) : FP
deriving DecidableEq

/-- IEEE negation. -/
def fneg : FP → FP
  | .nan => .nan
  | .neginf => .posinf
  | .posinf => .neginf
  | .fin a => .fin (-a)

/-- IEEE addition: NaN propagates; opposite infinities give NaN. -/
def fadd : FP → FP → FP
  | .nan, _ => .nan
  | _, .nan => .nan
  | .posinf, .neginf => .nan
  | .neginf, .posinf => .nan
  | .posinf, _ => .posinf
  | _, .posinf => .posinf
  | .neginf, _ => .neginf
  | _, .neginf => .neginf
  | .fin a, .fin b => .fin (a + b)

/-- IEEE subtraction, as addition of the negation. -/
def fsub (a b : FP) : FP := fadd a (fneg b)

/-- IEEE multiplication: NaN propagates; zero times infinity is NaN;
otherwise signs follow the usual rule. -/
def fmul : FP → FP → FP
  | .nan, _ => .nan
  | _, .nan => .nan
  | .posinf, .posinf => .posinf
  | .posinf, .neginf => .neginf
  | .neginf, .posinf => .neginf
  | .neginf, .neginf => .posinf
  | .posinf, .fin b => if b = 0 then .nan else if 0 < b then .posinf else .neginf
  | .neginf, .fin b => if b = 0 then .nan else if 0 < b then .neginf else .posinf
  | .fin a, .posinf => if a = 0 then .nan else if 0 < a then .posinf else .neginf
  | .fin a, .neginf => if a = 0 then .nan else if 0 < a then .neginf else .posinf
  | .fin a, .fin b => .fin (a * b)

/-- numpy log10 semantics: NaN on NaN or any negative input (numpy emits a
RuntimeWarning, not an exception), negative infinity at zero, positive
infinity at positive infinity, and on a positive finite input the finite
value given by the abstract logarithm `f`. -/
def flog10 (f : ℚ → ℚ) : FP → FP
  | .nan => .nan
  | .neginf => .nan
  | .posinf => .posinf
  | .fin q => if q < 0 then .nan else if q = 0 then .neginf else .fin (f q)

/-- IEEE strict less-than: any comparison involving NaN is false. -/
def fpLt : FP → FP → Bool
  | .nan, _ => false
  | _, .nan => false
  | .neginf, .neginf => false
  | .neginf, _ => true
  | _, .neginf => false
  | .posinf, _ => false
  | .fin _, .posinf => true
  | .fin a, .fin b => decide (a < b)

/-- Whether a value is the pandas missing-value sentinel (NaN); this is
what `dropna` tests.  Infinities are not missing. -/
def isNA : FP → Bool
  | .nan => true
  | _ => false

/-- One row of the Gaia query result, with the ten retrieved columns of
data_retrieval.py lines 15-26: source_id, ra, dec, parallax,
parallax_error, phot_g_mean_mag, phot_bp_mean_mag, phot_rp_mean_mag, ruwe,
radial_velocity.  The identifier is an integer; every other column is a
float column and may hold NaN. -/
structure CatalogRecord where
  source_id : ℤ
  ra : FP
  dec : FP
  parallax : FP
  parallax_error : FP
  phot_g_mean_mag : FP
  phot_bp_mean_mag : FP
  phot_rp_mean_mag : FP
  ruwe : FP
  radial_velocity : FP
deriving DecidableEq

/-- A row of the returned DataFrame: the original ten columns plus the two
derived columns added by data_retrieval.py lines 72 and 76. -/
structure AnalysisRecord where
  base : CatalogRecord
  bp_rp_color : FP
  abs_g_mag : FP
deriving DecidableEq

/-- The dropna pass of line 64: keep a row iff none of the six listed
columns (phot_g_mean_mag, phot_bp_mean_mag, phot_rp_mean_mag, parallax,
parallax_error, ruwe) is missing. -/
def passRequired (r : CatalogRecord) : Bool :=
  !(isNA r.phot_g_mean_mag || isNA r.phot_bp_mean_mag ||
    isNA r.phot_rp_mean_mag || isNA r.parallax ||
    isNA r.parallax_error || isNA r.ruwe)

/-- The filter of line 65: keep a row iff parallax_error < 5 (false for
NaN, as in pandas). -/
def passParallaxError (r : CatalogRecord) : Bool :=
  fpLt r.parallax_error (.fin 5)

/-- The filter of line 66: keep a row iff ruwe < 1.4. -/
def passRuwe (r : CatalogRecord) : Bool :=
  fpLt r.ruwe (.fin (7/5))

/-- The three filter passes of data_retrieval.py lines 64-66, in source
order: dropna on the six columns, then parallax_error < 5, then
ruwe < 1.4. -/
def quality_filter (rows : List CatalogRecord) : List CatalogRecord :=
  ((rows.filter passRequired).filter passParallaxError).filter passRuwe

/-- The DataFrame after the `if apply_filters` block of lines 61-66:
the quality filter when the flag is set, the raw rows untouched
otherwise. -/
def filtered_view (apply_filters : Bool) (rows : List CatalogRecord) :
    List CatalogRecord :=
  if apply_filters then quality_filter rows else rows

/-- The removed count logged at line 68: initial row count minus the row
count after filtering.  Both counts are naturals and filtering never adds
rows, so natural subtraction is exact. -/
def retrieve_removed (apply_filters : Bool) (rows : List CatalogRecord) : ℕ :=
  rows.length - (filtered_view apply_filters rows).length

/-- The derivation stage of lines 72 and 76, per row:
bp_rp_color = phot_bp_mean_mag - phot_rp_mean_mag and
abs_g_mag = phot_g_mean_mag + 5 * log10(parallax) - 10, in the float
domain.  The original ten columns are carried through unchanged. -/
def deriveRecord (f : ℚ → ℚ) (r : CatalogRecord) : AnalysisRecord :=
  ⟨r,
   fsub r.phot_bp_mean_mag r.phot_rp_mean_mag,
   fsub (fadd r.phot_g_mean_mag (fmul (.fin 5) (flog10 f r.parallax)))
     (.fin 10)⟩

/-- The DataFrame transformation of retrieve_data (lines 60-82) from the
raw query result onward: optional filtering, then the two derived columns,
row by row.  The remote query itself is the oracle that supplies
`rows`. -/
def retrieve_data (apply_filters : Bool) (f : ℚ → ℚ)
    (rows : List CatalogRecord) : List AnalysisRecord :=
  (filtered_view apply_filters rows).map (deriveRecord f)

/-- The error the spec assigns to a failed remote catalog call. -/
inductive RetrievalError where
  | err : RetrievalError
deriving DecidableEq

/-- Effects of the pre-DataFrame part of retrieve_data (lines 37-54), in
source order.  The raiseConfigError constructor stands for the
ConfigurationError the spec describes; it never occurs in the trace the
code produces. -/
inductive Event where
  | setRowLimit (n : ℤ) : Event
  | logLine : Event
  | remoteQuery (n : ℤ) : Event
  | getResults : Event
  | raiseConfigError : Event
deriving DecidableEq

/-- The effect trace of retrieve_data lines 37-54 for a given row_limit:
assign Gaia.ROW_LIMIT (line 37), three log lines (40, 41, 44), submit the
cone search (45), a log line (51), fetch results (53), a log line (54).
No validation of row_limit appears anywhere in the source. -/
def retrieveEvents (row_limit : ℤ) : List Event :=
  [Event.setRowLimit row_limit, Event.logLine, Event.logLine, Event.logLine,
   Event.remoteQuery row_limit, Event.logLine, Event.getResults,
   Event.logLine]

/-- One row of clusters.csv as hr.py main reads it (lines 35-42): the
cluster name and the Process flag.  The sky coordinates play no role in
control flow. -/
structure Cluster where
  name : String
  process : ℤ
deriving DecidableEq

/-- The RUN_ALL constant of hr.py line 22. -/
def RUN_ALL : Bool := false

/-- The batch loop of hr.py main (lines 35-50) over the cluster list,
with the call to retrieve_data abstracted as `retrieve`.  A cluster with
Process = 0 is skipped while RUN_ALL is false (line 37).  The loop body
has no exception handler, so an error raised by retrieve_data propagates
out of main at once: the result records the names of the clusters for
which retrieve_data was invoked and the uncaught error, if any. -/
def mainLoop (retrieve : Cluster → Except RetrievalError (List AnalysisRecord)) :
    List Cluster → List String × Option RetrievalError
  | [] => ([], none)
  | c :: rest =>
    if c.process = 0 ∧ RUN_ALL = false then mainLoop retrieve rest
    else
      match retrieve c with
      | .error e => ([c.name], some e)
      | .ok _ =>
        let r := mainLoop retrieve rest
        (c.name :: r.1, r.2)

/-- Adding NaN on the right is NaN, whatever the left operand. -/
lemma fadd_nan_right (x : FP) : fadd x .nan = .nan := by
  cases x <;> rfl

/-- Subtracting NaN is NaN, whatever the left operand. -/
lemma fsub_nan_right (x : FP) : fsub x .nan = .nan := by
  cases x <;> rfl

/-- Subtracting anything from NaN is NaN. -/
lemma fsub_nan_left (x : FP) : fsub .nan x = .nan := by
  cases x <;> rfl

/-- Adding negative infinity to a finite value gives negative infinity. -/
lemma fadd_fin_neginf (a : ℚ) : fadd (.fin a) .neginf = .neginf := rfl

/-- A value is flagged missing exactly when it is NaN. -/
lemma isNA_eq_nan {x : FP} : isNA x = true ↔ x = FP.nan := by
  cases x <;> simp [isNA]

/-- Swapping two consecutive filter passes does not change the result. -/
lemma filter_swap (p q : CatalogRecord → Bool) (l : List CatalogRecord) :
    (l.filter p).filter q = (l.filter q).filter p := by
  induction l with
  | nil => rfl
  | cons x xs ih =>
    cases hp : p x <;> cases hq : q x <;>
      simp [List.filter_cons, hp, hq, ih]

/-- The quality filter keeps a sublist of the raw rows. -/
lemma quality_filter_sublist (rows : List CatalogRecord) :
    List.Sublist (quality_filter rows) rows := by
  unfold quality_filter
  exact ((List.filter_sublist _).trans (List.filter_sublist _)).trans
    (List.filter_sublist _)

/-- The filter stage keeps a sublist of the raw rows for either flag
value. -/
lemma filtered_view_sublist (b : Bool) (rows : List CatalogRecord) :
    List.Sublist (filtered_view b rows) rows := by
  cases b with
  | false => exact List.Sublist.refl rows
  | true => exact quality_filter_sublist rows

/-- Derivation leaves the ten original columns of each row unchanged. -/
lemma deriveRecord_base (f : ℚ → ℚ) (r : CatalogRecord) :
    (deriveRecord f r).base = r := rfl

/-- Claim C3: with apply_filters = False the pass-through set is the raw
set itself, record for record and field for field, and the removed count
reported at line 68 is 0. -/
theorem c3_passthrough_identity (rows : List CatalogRecord) :
    filtered_view false rows = rows
    ∧ (filtered_view false rows).length = rows.length
    ∧ retrieve_removed false rows = 0 := by
  refine ⟨rfl, rfl, ?_⟩
  simp [retrieve_removed, filtered_view]

/-- Claim C4: the derivation stage maps each input row to exactly one
output row, so the output has the same length as the input, and stripping
the two derived columns recovers the input list itself, in order. -/
theorem c4_derive_cardinality (f : ℚ → ℚ) (X : List CatalogRecord) :
    ((X.map (deriveRecord f)).length = X.length)
    ∧ ((X.map (deriveRecord f)).map AnalysisRecord.base = X) := by
  constructor
  · exact X.length_map (deriveRecord f)
  · simp [Function.comp_def, deriveRecord_base]

/-- Claim C5: the filtered rows form a sublist of the raw rows, hence a
subset with the raw order preserved in which each kept record carries
exactly its raw field values, and the filtered count is at most the raw
count. -/
theorem c5_filter_sublist (rows : List CatalogRecord) :
    List.Sublist (quality_filter rows) rows
    ∧ (quality_filter rows).length ≤ rows.length := by
  exact ⟨quality_filter_sublist rows,
    (quality_filter_sublist rows).length_le⟩

/-- Claim C9: retrieve_data returns rows that extend catalog rows with
exactly the two derived columns bp_rp_color and abs_g_mag (the
AnalysisRecord shape); stripping those two columns gives back precisely
the filtered view of the raw rows, which is a sublist of the raw rows, so
the ten originally retrieved fields of every returned row are unchanged
from the raw result. -/
theorem c9_original_columns_unchanged (b : Bool) (f : ℚ → ℚ)
    (rows : List CatalogRecord) :
    ((retrieve_data b f rows).map AnalysisRecord.base = filtered_view b rows)
    ∧ List.Sublist ((retrieve_data b f rows).map AnalysisRecord.base) rows := by
  have h : (retrieve_data b f rows).map AnalysisRecord.base
      = filtered_view b rows := by
    simp [retrieve_data, Function.comp_def, deriveRecord_base]
  exact ⟨h, h ▸ filtered_view_sublist b rows⟩

/-- Claim C8: the three filter passes commute — every one of the six
orderings of dropna, the parallax_error pass and the ruwe pass yields the
set produced by the source order (quality_filter), and the result is a
sublist of the raw rows, so each ordering preserves the raw record
order. -/
theorem c8_filter_passes_commute (rows : List CatalogRecord) :
    ((rows.filter passRequired).filter passParallaxError).filter passRuwe
      = quality_filter rows
    ∧ ((rows.filter passRequired).filter passRuwe).filter passParallaxError
      = quality_filter rows
    ∧ ((rows.filter passParallaxError).filter passRequired).filter passRuwe
      = quality_filter rows
    ∧ ((rows.filter passParallaxError).filter passRuwe).filter passRequired
      = quality_filter rows
    ∧ ((rows.filter passRuwe).filter passRequired).filter passParallaxError
      = quality_filter rows
    ∧ ((rows.filter passRuwe).filter passParallaxError).filter passRequired
      = quality_filter rows
    ∧ List.Sublist (quality_filter rows) rows := by
  refine ⟨rfl, ?_, ?_, ?_, ?_, ?_, quality_filter_sublist rows⟩
  · rw [filter_swap passRuwe passParallaxError (rows.filter passRequired)]
    rfl
  · rw [filter_swap passParallaxError passRequired rows]
    rfl
  · rw [filter_swap passRuwe passRequired (rows.filter passParallaxError),
      filter_swap passParallaxError passRequired rows]
    rfl
  · rw [filter_swap passRuwe passRequired rows,
      filter_swap passRuwe passParallaxError (rows.filter passRequired)]
    rfl
  · rw [filter_swap passRuwe passParallaxError rows,
      filter_swap passRuwe passRequired (rows.filter passParallaxError),
      filter_swap passParallaxError passRequired rows]
    rfl

/-- A concrete abstract logarithm used to instantiate witnesses; the
claims hold for every choice. -/
def logTenDemo : ℚ → ℚ := fun _ => 3 / 10

/-- A record whose parallax is exactly zero; it passes every quality
filter (no field is NaN, parallax_error = 1 < 5, ruwe = 1 < 1.4) and so
reaches the derivation stage. -/
def c1recZero : CatalogRecord :=
  ⟨1, .fin 10, .fin 20, .fin 0, .fin 1, .fin 15, .fin 15, .fin 14, .fin 1,
   .fin 0⟩

/-- A record with negative parallax. -/
def c1recNeg : CatalogRecord :=
  ⟨2, .fin 10, .fin 20, .fin (-1), .fin 1, .fin 15, .fin 15, .fin 14,
   .fin 1, .fin 0⟩

/-- A record with positive parallax 2 mas and g magnitude 15. -/
def c1recPos : CatalogRecord :=
  ⟨3, .fin 10, .fin 20, .fin 2, .fin 1, .fin 15, .fin 15, .fin 14, .fin 1,
   .fin 0⟩

/-- Claim C1 counterexample: a record with parallax = 0 and finite g
magnitude survives filtering, reaches derivation, and its abs_g_mag is
negative infinity (numpy log10(0) = -inf, and 15 + 5 * (-inf) - 10 =
-inf), not NaN as the claim states for every non-positive parallax. -/
theorem c1_counterexample :
    (retrieve_data true logTenDemo [c1recZero]).map AnalysisRecord.abs_g_mag
      = [FP.neginf]
    ∧ FP.neginf ≠ FP.nan := by
  constructor
  · norm_num [retrieve_data, filtered_view, quality_filter, List.filter,
      passRequired, passParallaxError, passRuwe, isNA, fpLt, c1recZero,
      deriveRecord, flog10, fmul, fadd, fsub, fneg, logTenDemo]
  · decide

/-- Claim C1 as amended: for negative parallax abs_g_mag is NaN; for
parallax exactly zero with a finite g magnitude it is negative infinity,
not NaN; for positive parallax and finite g magnitude it equals
m + 5 * log10(parallax) - 10.  Derivation is a total function, so it
never raises for non-positive parallax. -/
theorem c1_abs_g_mag_amended (f : ℚ → ℚ) (r : CatalogRecord) (p m : ℚ) :
    (r.parallax = FP.fin p → p < 0 → (deriveRecord f r).abs_g_mag = FP.nan)
    ∧ (r.parallax = FP.fin 0 → r.phot_g_mean_mag = FP.fin m →
        (deriveRecord f r).abs_g_mag = FP.neginf)
    ∧ (r.parallax = FP.fin p → 0 < p → r.phot_g_mean_mag = FP.fin m →
        (deriveRecord f r).abs_g_mag = FP.fin (m + 5 * f p - 10)) := by
  refine ⟨?_, ?_, ?_⟩
  · intro hp hneg
    simp [deriveRecord, hp, flog10, hneg, fmul, fadd_nan_right,
      fsub_nan_left]
  · intro hp hg
    norm_num [deriveRecord, hp, hg, flog10, fmul, fadd, fsub, fneg]
  · intro hp hpos hg
    have h1 : ¬ p < 0 := not_lt.mpr hpos.le
    norm_num [deriveRecord, hp, hg, flog10, h1, hpos.ne', fmul, fadd,
      fsub, fneg]
    ring_nf

/-- Claim C1 amended, witnessed at the three concrete records: negative
parallax gives NaN, zero parallax gives negative infinity, parallax 2
gives 15 + 5 * log10(2) - 10. -/
theorem c1_abs_g_mag_amended_witness :
    (deriveRecord logTenDemo c1recNeg).abs_g_mag = FP.nan
    ∧ (deriveRecord logTenDemo c1recZero).abs_g_mag = FP.neginf
    ∧ (deriveRecord logTenDemo c1recPos).abs_g_mag
        = FP.fin (15 + 5 * logTenDemo 2 - 10) :=
  ⟨(c1_abs_g_mag_amended logTenDemo c1recNeg (-1) 15).1 rfl (by norm_num),
   (c1_abs_g_mag_amended logTenDemo c1recZero 0 15).2.1 rfl rfl,
   (c1_abs_g_mag_amended logTenDemo c1recPos 2 15).2.2 rfl (by norm_num)
     rfl⟩

/-- A record whose ra (sky position) is missing but whose six
dropna-checked columns are all present and within thresholds. -/
def c2recMissingRa : CatalogRecord :=
  ⟨4, FP.nan, .fin 20, .fin 1, .fin 1, .fin 15, .fin 15, .fin 14, .fin 1,
   .fin 0⟩

/-- A fully present record passing all filters. -/
def c2recGood : CatalogRecord :=
  ⟨5, .fin 10, .fin 20, .fin 2, .fin 1, .fin 15, .fin 15, .fin 14, .fin 1,
   .fin 0⟩

/-- Claim C2 counterexample: a record with a missing sky position (ra is
NaN) survives the full quality filter, because dropna at line 64 checks
only the six numeric columns and never the identifier or the sky
position; so not every required field of the data model is present in the
filtered set. -/
theorem c2_counterexample :
    quality_filter [c2recMissingRa] = [c2recMissingRa]
    ∧ isNA c2recMissingRa.ra = true := by
  constructor
  · norm_num [quality_filter, List.filter, passRequired, passParallaxError,
      passRuwe, isNA, fpLt, c2recMissingRa]
  · rfl

/-- Claim C2 as amended: every record in the filtered set has the six
dropna-checked fields present (the three magnitudes, parallax,
parallax_error, ruwe — not the identifier or the sky position), and
satisfies parallax_error < 5 and ruwe < 1.4 strictly. -/
theorem c2_filtered_records_amended (rows : List CatalogRecord)
    (r : CatalogRecord) (h : r ∈ quality_filter rows) :
    isNA r.phot_g_mean_mag = false ∧ isNA r.phot_bp_mean_mag = false
    ∧ isNA r.phot_rp_mean_mag = false ∧ isNA r.parallax = false
    ∧ isNA r.parallax_error = false ∧ isNA r.ruwe = false
    ∧ fpLt r.parallax_error (.fin 5) = true
    ∧ fpLt r.ruwe (.fin (7/5)) = true := by
  unfold quality_filter at h
  rw [List.mem_filter] at h
  obtain ⟨h12, h3⟩ := h
  rw [List.mem_filter] at h12
  obtain ⟨h1m, h2⟩ := h12
  rw [List.mem_filter] at h1m
  obtain ⟨hmem, h1⟩ := h1m
  simp only [passRequired, Bool.not_eq_true', Bool.or_eq_false_iff] at h1
  exact ⟨h1.1.1.1.1.1, h1.1.1.1.1.2, h1.1.1.1.2, h1.1.1.2, h1.1.2, h1.2,
    h2, h3⟩

/-- Claim C2 amended, witnessed at a concrete singleton raw set. -/
theorem c2_filtered_records_amended_witness :
    (c2recGood ∈ quality_filter [c2recGood])
    ∧ (isNA c2recGood.phot_g_mean_mag = false
       ∧ isNA c2recGood.phot_bp_mean_mag = false
       ∧ isNA c2recGood.phot_rp_mean_mag = false
       ∧ isNA c2recGood.parallax = false
       ∧ isNA c2recGood.parallax_error = false
       ∧ isNA c2recGood.ruwe = false
       ∧ fpLt c2recGood.parallax_error (.fin 5) = true
       ∧ fpLt c2recGood.ruwe (.fin (7/5)) = true) := by
  have h : c2recGood ∈ quality_filter [c2recGood] := by
    have hq : quality_filter [c2recGood] = [c2recGood] := by
      norm_num [quality_filter, List.filter, passRequired,
        passParallaxError, passRuwe, isNA, fpLt, c2recGood]
    rw [hq]
    exact List.mem_singleton.mpr rfl
  exact ⟨h, c2_filtered_records_amended [c2recGood] c2recGood h⟩

/-- Claim C7 counterexample: with row_limit = -5 the code still assigns
the row cap and submits the remote cone search, and raises no
ConfigurationError — nothing in retrieve_data lines 35-53 validates the
configuration, contradicting the claim that a negative row_limit fails
fast before any remote call. -/
theorem c7_counterexample :
    Event.remoteQuery (-5) ∈ retrieveEvents (-5)
    ∧ Event.raiseConfigError ∉ retrieveEvents (-5) := by decide

/-- Claim C7 as amended: for every row_limit, including negative ones,
the remote query is submitted with that row cap and no ConfigurationError
is ever raised — the code performs no configuration validation at all. -/
theorem c7_no_validation_amended (n : ℤ) :
    Event.remoteQuery n ∈ retrieveEvents n
    ∧ Event.raiseConfigError ∉ retrieveEvents n := by
  constructor
  · simp [retrieveEvents]
  · simp [retrieveEvents]

/-- A cluster named A with Process = 1. -/
def clusterA : Cluster := ⟨"A", 1⟩

/-- A cluster named B with Process = 1. -/
def clusterB : Cluster := ⟨"B", 1⟩

/-- A retrieval oracle that fails on cluster A and succeeds elsewhere. -/
def failingRetrieve (c : Cluster) :
    Except RetrievalError (List AnalysisRecord) :=
  if c.name = "A" then Except.error RetrievalError.err else Except.ok []

/-- Claim C6 counterexample: with two processable clusters A and B and a
retrieval that fails on A, the batch loop of hr.py invokes retrieve_data
for A only, the error escapes main, and B — although not skipped — is
never processed: the loop body has no exception handler, so one failing
region aborts the whole batch. -/
theorem c6_counterexample :
    mainLoop failingRetrieve [clusterA, clusterB]
      = (["A"], some RetrievalError.err)
    ∧ "B" ∉ (mainLoop failingRetrieve [clusterA, clusterB]).1 := by decide

/-- Claim C6 as amended: when retrieve_data raises a RetrievalError for a
non-skipped region, the batch loop stops at that region — no later region
is invoked and the error propagates out of main uncaught. -/
theorem c6_batch_aborts_amended
    (retrieve : Cluster → Except RetrievalError (List AnalysisRecord))
    (c : Cluster) (rest : List Cluster) (e : RetrievalError)
    (hskip : ¬ (c.process = 0 ∧ RUN_ALL = false))
    (herr : retrieve c = Except.error e) :
    mainLoop retrieve (c :: rest) = ([c.name], some e) := by
  rw [mainLoop, if_neg hskip, herr]

/-- Claim C6 amended, witnessed at the concrete failing batch. -/
theorem c6_batch_aborts_amended_witness :
    ¬ (clusterA.process = 0 ∧ RUN_ALL = false)
    ∧ failingRetrieve clusterA = Except.error RetrievalError.err
    ∧ mainLoop failingRetrieve [clusterA, clusterB]
        = (["A"], some RetrievalError.err) :=
  ⟨by decide, by rfl,
   c6_batch_aborts_amended failingRetrieve clusterA [clusterB]
     RetrievalError.err (by decide) (by rfl)⟩

/-- A record with missing phot_bp_mean_mag and missing parallax; the
remaining fields are present. -/
def c10rec : CatalogRecord :=
  ⟨6, .fin 10, .fin 20, FP.nan, .fin 1, .fin 15, FP.nan, .fin 14, .fin 1,
   .fin 0⟩

/-- Claim C10: with filtering disabled the derivation is still total over
records with missing values — a missing blue or red magnitude makes
bp_rp_color NaN, a missing g magnitude or parallax makes abs_g_mag NaN,
and every record stays in the returned collection (stripping the two
derived columns of the retrieve_data output recovers the raw rows
exactly). -/
theorem c10_derivation_total_on_missing (f : ℚ → ℚ) (r : CatalogRecord)
    (rows : List CatalogRecord) :
    ((isNA r.phot_bp_mean_mag = true ∨ isNA r.phot_rp_mean_mag = true) →
        (deriveRecord f r).bp_rp_color = FP.nan)
    ∧ ((isNA r.phot_g_mean_mag = true ∨ isNA r.parallax = true) →
        (deriveRecord f r).abs_g_mag = FP.nan)
    ∧ (retrieve_data false f rows).map AnalysisRecord.base = rows := by
  refine ⟨?_, ?_, ?_⟩
  · intro h
    rcases h with h | h
    · rw [isNA_eq_nan] at h
      simp [deriveRecord, h, fsub_nan_left]
    · rw [isNA_eq_nan] at h
      simp [deriveRecord, h, fsub_nan_right]
  · intro h
    rcases h with h | h
    · rw [isNA_eq_nan] at h
      simp [deriveRecord, h, fadd, fsub_nan_left]
    · rw [isNA_eq_nan] at h
      simp [deriveRecord, h, flog10, fmul, fadd_nan_right, fsub_nan_left]
  · simp [retrieve_data, filtered_view, Function.comp_def, deriveRecord_base]

/-- Claim C10, witnessed at a record missing both phot_bp_mean_mag and
parallax, fed through the pass-through pipeline. -/
theorem c10_derivation_total_on_missing_witness :
    (deriveRecord logTenDemo c10rec).bp_rp_color = FP.nan
    ∧ (deriveRecord logTenDemo c10rec).abs_g_mag = FP.nan
    ∧ (retrieve_data false logTenDemo [c10rec]).map AnalysisRecord.base
        = [c10rec] :=
  ⟨(c10_derivation_total_on_missing logTenDemo c10rec [c10rec]).1
     (Or.inl rfl),
   (c10_derivation_total_on_missing logTenDemo c10rec [c10rec]).2.1
     (Or.inr rfl),
   (c10_derivation_total_on_missing logTenDemo c10rec [c10rec]).2.2⟩

end GaiaPipeline
